import Mathlib

/-!
Verification of the citation-extractor core: a shallow embedding of
`citation_parser.py` and `citation_extraction_engine.py`.

Strings are modelled as Lean `String`/`List Char`; Python floats are
modelled as `ℚ`; Python dictionaries whose key sets vary dynamically are
modelled as association lists; fallible dictionary indexing is modelled
with `Except String`.  Character classes follow Python's ASCII behaviour
(the whitespace class `\s` is modelled by its ASCII members; the inputs
handled by the parser's grammar are ASCII).
-/

namespace CitationExtractor

/-- ASCII members of Python's regex class `\s` (and of `str.strip`). -/
def isPySpace (c : Char) : Bool :=
  c = ' ' || c = '\t' || c = '\n' || c = '\r' || c = '\x0b' || c = '\x0c'

/-- Python regex class `[A-Za-z]`. -/
def isAsciiAlpha (c : Char) : Bool :=
  ('A' ≤ c && c ≤ 'Z') || ('a' ≤ c && c ≤ 'z')

/-- Python regex class `[a-z]`. -/
def isLowerAlpha (c : Char) : Bool :=
  'a' ≤ c && c ≤ 'z'

/-- Python regex class `[0-9]` / `\d`. -/
def isAsciiDigit (c : Char) : Bool :=
  '0' ≤ c && c ≤ '9'

/-- Python regex class `\w` (ASCII part): letters, digits, underscore. -/
def isWordChar (c : Char) : Bool :=
  isAsciiAlpha c || isAsciiDigit c || c = '_'

/-- `str.strip()`: drop leading and trailing whitespace. -/
def stripChars (l : List Char) : List Char :=
  ((l.dropWhile isPySpace).reverse.dropWhile isPySpace).reverse

/-- Worker for `re.sub(r'\s+', ' ', ·)`: the flag records whether the
previous character was part of a whitespace run already emitted. -/
def collapseGo : List Char → Bool → List Char
  | [], _ => []
  | c :: rest, inRun =>
    if isPySpace c then
      if inRun then collapseGo rest true else ' ' :: collapseGo rest true
    else c :: collapseGo rest false

/-- `re.sub(r'\s+', ' ', l)`: each maximal whitespace run becomes one space. -/
def collapseWs (l : List Char) : List Char :=
  collapseGo l false

/-- The numbered-book fixup of `normalizeBookNames`: if the (lowercased)
name starts with digits, optional whitespace, then letters
(`re.match(r'^\d+\s*[a-z]+', ·)`), rewrite that prefix to
`digits ++ " " ++ letters` (`re.sub(r'^(\d+)\s*([a-z]+)', r'\1 \2', ·)`). -/
def fixNumbered (l : List Char) : List Char :=
  let ds := l.takeWhile isAsciiDigit
  let r1 := l.dropWhile isAsciiDigit
  let r2 := r1.dropWhile isPySpace
  let ws := r2.takeWhile isLowerAlpha
  let r3 := r2.dropWhile isLowerAlpha
  if ds ≠ [] ∧ ws ≠ [] then ds ++ ' ' :: (ws ++ r3) else l

/-- The cleanup pipeline of `normalizeBookNames`:
`strip`, `lower`, collapse whitespace, numbered-book fixup. -/
def cleanBookName (s : String) : String :=
  String.mk (fixNumbered (collapseWs ((stripChars s.toList).map Char.toLower)))

/-- `CitationParser._buildBiblicalBookDatabase`, transcribed verbatim. -/
def biblicalBooks : List (String × String) :=
  [("genesis", "Genesis"), ("gen", "Genesis"), ("ge", "Genesis"),
   ("exodus", "Exodus"), ("exod", "Exodus"), ("ex", "Exodus"),
   ("leviticus", "Leviticus"), ("lev", "Leviticus"), ("le", "Leviticus"),
   ("numbers", "Numbers"), ("num", "Numbers"), ("nu", "Numbers"),
   ("deuteronomy", "Deuteronomy"), ("deut", "Deuteronomy"), ("dt", "Deuteronomy"),
   ("joshua", "Joshua"), ("josh", "Joshua"), ("jos", "Joshua"),
   ("judges", "Judges"), ("judg", "Judges"), ("jdg", "Judges"),
   ("ruth", "Ruth"), ("ru", "Ruth"),
   ("1 samuel", "1 Samuel"), ("1sam", "1 Samuel"), ("1sa", "1 Samuel"),
   ("2 samuel", "2 Samuel"), ("2sam", "2 Samuel"), ("2sa", "2 Samuel"),
   ("1 kings", "1 Kings"), ("1kgs", "1 Kings"), ("1ki", "1 Kings"),
   ("2 kings", "2 Kings"), ("2kgs", "2 Kings"), ("2ki", "2 Kings"),
   ("1 chronicles", "1 Chronicles"), ("1chr", "1 Chronicles"), ("1ch", "1 Chronicles"),
   ("2 chronicles", "2 Chronicles"), ("2chr", "2 Chronicles"), ("2ch", "2 Chronicles"),
   ("ezra", "Ezra"), ("ezr", "Ezra"),
   ("nehemiah", "Nehemiah"), ("neh", "Nehemiah"), ("ne", "Nehemiah"),
   ("esther", "Esther"), ("est", "Esther"), ("es", "Esther"),
   ("job", "Job"), ("jb", "Job"),
   ("psalms", "Psalms"), ("psalm", "Psalms"), ("ps", "Psalms"), ("psa", "Psalms"),
   ("proverbs", "Proverbs"), ("prov", "Proverbs"), ("pr", "Proverbs"),
   ("ecclesiastes", "Ecclesiastes"), ("eccl", "Ecclesiastes"), ("ec", "Ecclesiastes"),
   ("song of solomon", "Song of Solomon"), ("song of songs", "Song of Solomon"),
   ("song", "Song of Solomon"), ("so", "Song of Solomon"), ("sos", "Song of Solomon"),
   ("isaiah", "Isaiah"), ("isa", "Isaiah"), ("is", "Isaiah"),
   ("jeremiah", "Jeremiah"), ("jer", "Jeremiah"), ("je", "Jeremiah"),
   ("lamentations", "Lamentations"), ("lam", "Lamentations"), ("la", "Lamentations"),
   ("ezekiel", "Ezekiel"), ("ezek", "Ezekiel"), ("eze", "Ezekiel"),
   ("daniel", "Daniel"), ("dan", "Daniel"), ("da", "Daniel"),
   ("hosea", "Hosea"), ("hos", "Hosea"), ("ho", "Hosea"),
   ("joel", "Joel"), ("joe", "Joel"),
   ("amos", "Amos"), ("am", "Amos"),
   ("obadiah", "Obadiah"), ("obad", "Obadiah"), ("ob", "Obadiah"),
   ("jonah", "Jonah"), ("jon", "Jonah"),
   ("micah", "Micah"), ("mic", "Micah"), ("mi", "Micah"),
   ("nahum", "Nahum"), ("nah", "Nahum"), ("na", "Nahum"),
   ("habakkuk", "Habakkuk"), ("hab", "Habakkuk"), ("hb", "Habakkuk"),
   ("zephaniah", "Zephaniah"), ("zeph", "Zephaniah"), ("zep", "Zephaniah"),
   ("haggai", "Haggai"), ("hag", "Haggai"), ("hg", "Haggai"),
   ("zechariah", "Zechariah"), ("zech", "Zechariah"), ("zec", "Zechariah"),
   ("malachi", "Malachi"), ("mal", "Malachi"),
   ("matthew", "Matthew"), ("matt", "Matthew"), ("mt", "Matthew"),
   ("mark", "Mark"), ("mk", "Mark"),
   ("luke", "Luke"), ("lk", "Luke"),
   ("john", "John"), ("jn", "John"),
   ("acts", "Acts"), ("ac", "Acts"),
   ("romans", "Romans"), ("rom", "Romans"), ("ro", "Romans"),
   ("1 corinthians", "1 Corinthians"), ("1cor", "1 Corinthians"), ("1co", "1 Corinthians"),
   ("2 corinthians", "2 Corinthians"), ("2cor", "2 Corinthians"), ("2co", "2 Corinthians"),
   ("galatians", "Galatians"), ("gal", "Galatians"), ("ga", "Galatians"),
   ("ephesians", "Ephesians"), ("eph", "Ephesians"), ("ep", "Ephesians"),
   ("philippians", "Philippians"), ("phil", "Philippians"), ("php", "Philippians"),
   ("colossians", "Colossians"), ("col", "Colossians"),
   ("1 thessalonians", "1 Thessalonians"), ("1thess", "1 Thessalonians"), ("1th", "1 Thessalonians"),
   ("2 thessalonians", "2 Thessalonians"), ("2thess", "2 Thessalonians"), ("2th", "2 Thessalonians"),
   ("1 timothy", "1 Timothy"), ("1tim", "1 Timothy"), ("1ti", "1 Timothy"),
   ("2 timothy", "2 Timothy"), ("2tim", "2 Timothy"), ("2ti", "2 Timothy"),
   ("titus", "Titus"), ("tit", "Titus"), ("ti", "Titus"),
   ("philemon", "Philemon"), ("phlm", "Philemon"), ("phm", "Philemon"),
   ("hebrews", "Hebrews"), ("heb", "Hebrews"),
   ("james", "James"), ("jas", "James"), ("ja", "James"),
   ("1 peter", "1 Peter"), ("1pet", "1 Peter"), ("1pe", "1 Peter"),
   ("2 peter", "2 Peter"), ("2pet", "2 Peter"), ("2pe", "2 Peter"),
   ("1 john", "1 John"), ("1jn", "1 John"),
   ("2 john", "2 John"), ("2jn", "2 John"),
   ("3 john", "3 John"), ("3jn", "3 John"),
   ("jude", "Jude"), ("jd", "Jude"),
   ("revelation", "Revelation"), ("rev", "Revelation"), ("re", "Revelation")]

/-- Dictionary lookup in the book table. -/
def lookupBook (k : String) : Option String :=
  (biblicalBooks.find? (fun p => p.1 = k)).map (fun p => p.2)

/-- `CitationParser.normalizeBookNames`: clean the raw name, look it up,
and retry with all spaces removed; `none` when neither lookup succeeds. -/
def normalizeBookNames (book_name : String) : Option String :=
  let clean := cleanBookName book_name
  match lookupBook clean with
  | some v => some v
  | none => lookupBook (String.mk (clean.toList.filter (fun c => c ≠ ' ')))

/-! ### The `bible_standard` pattern

`([1-3]?\s*[A-Za-z]+(?:\s+of\s+[A-Za-z]+)?(?:\s+[A-Za-z]+)*)\s+(\d+):(\d+)(?:-(\d+))?`
with `re.IGNORECASE`, compiled as a recursive-descent matcher with the same
backtracking order as Python's `re` (greedy quantifiers, leftmost match).
Wherever two adjacent pieces draw from disjoint character classes the greedy
choice is deterministic and is compiled to `takeWhile`/`dropWhile`. -/

/-- `int(...)` on a captured digit string. -/
def digitsToNat (ds : List Char) : Nat :=
  ds.foldl (fun n c => 10 * n + (c.toNat - '0'.toNat)) 0

/-- `\s+`: require at least one whitespace character, consume the run. -/
def reqSpaces (s : List Char) : Option (List Char) :=
  if s.takeWhile isPySpace = [] then none else some (s.dropWhile isPySpace)

/-- `(\d+)`: require at least one digit; return the raw capture and the rest. -/
def reqDigits (s : List Char) : Option (List Char × List Char) :=
  let d := s.takeWhile isAsciiDigit
  if d = [] then none else some (d, s.dropWhile isAsciiDigit)

/-- A case-insensitive literal word (`w` given lowercased). -/
def litWord (w : String) (s : List Char) : Option (List Char) :=
  if (s.take w.length).map Char.toLower = w.toList then some (s.drop w.length)
  else none

/-- One repetition of `(?:\s+[A-Za-z]+)`. -/
def matchWordRep (s : List Char) : Option (List Char) :=
  if s.takeWhile isPySpace = [] then none
  else
    let r1 := s.dropWhile isPySpace
    if r1.takeWhile isAsciiAlpha = [] then none
    else some (r1.dropWhile isAsciiAlpha)

/-- Fueled worker for `starStops`; since each repetition consumes at least
two characters, fuel equal to the length of the input is never exhausted. -/
def starStopsGo : Nat → List Char → List (List Char)
  | 0, s => [s]
  | fuel + 1, s =>
    match matchWordRep s with
    | some s2 => starStopsGo fuel s2 ++ [s]
    | none => [s]

/-- All stopping points of the greedy `(?:\s+[A-Za-z]+)*`, most-consumed
first (the order in which the regex engine offers them to the rest of the
pattern). -/
def starStops (s : List Char) : List (List Char) :=
  starStopsGo s.length s

/-- `(?:\s+of\s+[A-Za-z]+)?`, the body. -/
def matchOfClause (s : List Char) : Option (List Char) := do
  let r1 ← reqSpaces s
  let r2 ← litWord "of" r1
  let r3 ← reqSpaces r2
  if r3.takeWhile isAsciiAlpha = [] then none
  else some (r3.dropWhile isAsciiAlpha)

/-- Raw capture groups of one `bible_standard` match. -/
structure BibleMatch where
  book : List Char
  chapter : Nat
  startVerse : Nat
  endVerse : Option Nat
deriving DecidableEq, Repr

/-- `\s+(\d+):(\d+)(?:-(\d+))?`, the tail of the pattern after group 1. -/
def matchChapterVerse (s : List Char) : Option (Nat × Nat × Option Nat) := do
  let r1 ← reqSpaces s
  let (d1, r2) ← reqDigits r1
  match r2 with
  | ':' :: r3 => do
    let (d2, r4) ← reqDigits r3
    match r4 with
    | '-' :: r5 =>
      match reqDigits r5 with
      | some (d3, _) => some (digitsToNat d1, digitsToNat d2, some (digitsToNat d3))
      | none => some (digitsToNat d1, digitsToNat d2, none)
    | _ => some (digitsToNat d1, digitsToNat d2, none)
  | _ => none

/-- Continue a `bible_standard` match after group 1's mandatory `[A-Za-z]+`;
`s` is the position where the whole match started (used to reconstruct the
captured group-1 text). -/
def bibleAfterLetters (s rest : List Char) : Option BibleMatch :=
  let withStops : List Char → Option BibleMatch := fun r =>
    (starStops r).findSome? (fun stop =>
      match matchChapterVerse stop with
      | some (ch, sv, ev) =>
        some { book := s.take (s.length - stop.length), chapter := ch,
               startVerse := sv, endVerse := ev }
      | none => none)
  match matchOfClause rest with
  | some r2 =>
    match withStops r2 with
    | some m => some m
    | none => withStops rest
  | none => withStops rest

/-- `bible_standard` anchored at the start of `s` (Python `.match`). -/
def matchBibleCore (s : List Char) : Option BibleMatch :=
  let afterPrefix : List Char → Option BibleMatch := fun r =>
    let r1 := r.dropWhile isPySpace
    if r1.takeWhile isAsciiAlpha = [] then none
    else bibleAfterLetters s (r1.dropWhile isAsciiAlpha)
  match s with
  | [] => none
  | c :: rest =>
    if c = '1' ∨ c = '2' ∨ c = '3' then
      match afterPrefix rest with
      | some m => some m
      | none => afterPrefix s
    else afterPrefix s

/-- `bible_standard` leftmost search (Python `.search`). -/
def searchBible : List Char → Option BibleMatch
  | [] => none
  | c :: rest =>
    match matchBibleCore (c :: rest) with
    | some m => some m
    | none => searchBible rest

/-! ### The literary patterns -/

/-- Python regex class `[A-Za-z\s]` (group 1 of the literary patterns). -/
def isLitChar (c : Char) : Bool := isAsciiAlpha c || isPySpace c

/-- Driver for a lazy leading group `([...]+?)`: offer the continuation `k`
ever-longer captures, shortest first, as Python's lazy quantifier does. -/
def lazyPrefixGo (cls : Char → Bool) (k : List Char → List Char → Option α) :
    List Char → List Char → Option α
  | _, [] => none
  | acc, c :: rest =>
    if cls c then
      let acc2 := acc ++ [c]
      match k acc2 rest with
      | some v => some v
      | none => lazyPrefixGo cls k acc2 rest
    else none

/-- `,?\s+(\d+)(?:-(\d+))?` — shared tail of the drama pattern. -/
def dramaLineTail (s : List Char) : Option (List Char × Option (List Char)) := do
  let r1 := match s with | ',' :: t => t | _ => s
  let r2 ← reqSpaces r1
  let (l1, r3) ← reqDigits r2
  match r3 with
  | '-' :: u =>
    match reqDigits u with
    | some (l2, _) => some (l1, some l2)
    | none => some (l1, none)
  | _ => some (l1, none)

/-- `\s+Act\s+(\d+)\s+Scene\s+(\d+),?\s+(\d+)(?:-(\d+))?`atop group 1. -/
def dramaTail (rest : List Char) :
    Option (List Char × List Char × List Char × Option (List Char)) := do
  let r1 ← reqSpaces rest
  let r2 ← litWord "act" r1
  let r3 ← reqSpaces r2
  let (act, r4) ← reqDigits r3
  let r5 ← reqSpaces r4
  let r6 ← litWord "scene" r5
  let r7 ← reqSpaces r6
  let (scene, r8) ← reqDigits r7
  let (l1, l2) ← dramaLineTail r8
  some (act, scene, l1, l2)

/-- `literature_drama` anchored at the start (Python `.match`): returns
(group1, act, scene, startLine, endLine?). -/
def dramaMatch (s : List Char) :
    Option (List Char × List Char × List Char × List Char × Option (List Char)) :=
  lazyPrefixGo isLitChar
    (fun acc rest => (dramaTail rest).map (fun v => (acc, v.1, v.2.1, v.2.2.1, v.2.2.2)))
    [] s

/-- Ignore-case `[IVX]` (Python applies `re.IGNORECASE` to classes too). -/
def isIVX (c : Char) : Bool :=
  c.toLower = 'i' || c.toLower = 'v' || c.toLower = 'x'

/-- `[\.,]\s*(\d+)(?:-(\d+))?` after the numeral group of `literature_book`. -/
def afterBookNum (r : List Char) : Option (List Char × Option (List Char)) := do
  match r with
  | c :: t =>
    if c = '.' ∨ c = ',' then do
      let (l1, t2) ← reqDigits (t.dropWhile isPySpace)
      match t2 with
      | '-' :: u =>
        match reqDigits u with
        | some (l2, _) => some (l1, some l2)
        | none => some (l1, none)
      | _ => some (l1, none)
    else none
  | [] => none

/-- `([IVX]+|[0-9]+)` followed by `afterBookNum`; alternatives in pattern
order, each greedy run being deterministic against the following `[\.,]`. -/
def bookNumAlt (r : List Char) : Option (List Char × List Char × Option (List Char)) :=
  let viaIVX :=
    let ivx := r.takeWhile isIVX
    if ivx = [] then none
    else (afterBookNum (r.dropWhile isIVX)).map (fun v => (ivx, v.1, v.2))
  match viaIVX with
  | some v => some v
  | none =>
    let ds := r.takeWhile isAsciiDigit
    if ds = [] then none
    else (afterBookNum (r.dropWhile isAsciiDigit)).map (fun v => (ds, v.1, v.2))

/-- `\s+(?:Book\s+)?([IVX]+|[0-9]+)[\.,]\s*(\d+)(?:-(\d+))?` atop group 1. -/
def bookTail (rest : List Char) : Option (List Char × List Char × Option (List Char)) := do
  let r1 ← reqSpaces rest
  let viaBook := do
    let r2 ← litWord "book" r1
    let r3 ← reqSpaces r2
    bookNumAlt r3
  match viaBook with
  | some v => some v
  | none => bookNumAlt r1

/-- `literature_book` anchored at the start: (group1, numeral, start, end?). -/
def bookMatch (s : List Char) :
    Option (List Char × List Char × List Char × Option (List Char)) :=
  lazyPrefixGo isLitChar
    (fun acc rest => (bookTail rest).map (fun v => (acc, v.1, v.2.1, v.2.2)))
    [] s

/-- `$` without `re.MULTILINE`: end of string or just before a final newline. -/
def atPyEnd (s : List Char) : Bool :=
  s = [] || s = ['\n']

/-- `\.?$` at the end of `literature_simple`. -/
def dotEnd (s : List Char) : Option Unit :=
  match s with
  | '.' :: u => if atPyEnd u then some () else if atPyEnd ('.' :: u) then some () else none
  | _ => if atPyEnd s then some () else none

/-- `\.?\s+(\d+)(?:-(\d+))?\.?$` atop group 1 of `literature_simple`. -/
def simpleTail (rest : List Char) : Option (List Char × Option (List Char)) :=
  let core : List Char → Option (List Char × Option (List Char)) := fun r => do
    let r1 ← reqSpaces r
    let (l1, r2) ← reqDigits r1
    match r2 with
    | '-' :: u =>
      (match reqDigits u with
       | some (l2, v) =>
         match dotEnd v with
         | some _ => some (l1, some l2)
         | none => (dotEnd r2).map (fun _ => (l1, none))
       | none => (dotEnd r2).map (fun _ => (l1, none)))
    | _ => (dotEnd r2).map (fun _ => (l1, none))
  match rest with
  | '.' :: t =>
    (match core t with
     | some v => some v
     | none => core rest)
  | _ => core rest

/-- `literature_simple` anchored at both ends: (group1, start, end?). -/
def simpleMatch (s : List Char) : Option (List Char × List Char × Option (List Char)) :=
  lazyPrefixGo isLitChar
    (fun acc rest => (simpleTail rest).map (fun v => (acc, v.1, v.2)))
    [] s

/-! ### Structured results and the parser -/

/-- `CitationResult` (the Python dataclass). -/
structure CitationResult where
  type : String
  work : Option String := none
  book : Option String := none
  chapter : Option Nat := none
  start_verse : Option Nat := none
  end_verse : Option Nat := none
  start_line : Option Nat := none
  end_line : Option Nat := none
  act : Option String := none
  scene : Option String := none
  book_number : Option String := none
deriving DecidableEq, Repr

/-- `needle` occurs as a contiguous substring of `hay` (Python's `in`). -/
def containsSub (needle : List Char) : List Char → Bool
  | [] => needle = []
  | c :: t => needle.isPrefixOf (c :: t) || containsSub needle t

/-- Python `str.split(';')`. -/
def splitSemis : List Char → List (List Char)
  | [] => [[]]
  | c :: t =>
    if c = ';' then [] :: splitSemis t
    else
      match splitSemis t with
      | h :: r => (c :: h) :: r
      | [] => [[c]]

/-- The single-reference body of `CitationParser._parseBiblicalCitation`
(the branch for a segment without semicolons). -/
def parseBiblicalSingle (citation : String) : List CitationResult :=
  match matchBibleCore (stripChars citation.toList) with
  | some m =>
    match normalizeBookNames (String.mk m.book) with
    | some b =>
      [{ type := "bible", book := some b, chapter := some m.chapter,
         start_verse := some m.startVerse,
         end_verse := some (m.endVerse.getD m.startVerse) }]
    | none => []
  | none => []

/-- `CitationParser._parseBiblicalCitation`: split at semicolons and parse
each stripped segment (the recursion in the source bottoms out after one
split, since the split parts contain no semicolon). -/
def parseBiblicalCitation (citation : String) : List CitationResult :=
  if citation.toList.contains ';' then
    (((splitSemis citation.toList).map
        (fun p => String.mk (stripChars p))).map parseBiblicalSingle).flatten
  else parseBiblicalSingle citation

/-- `CitationParser._parseLiteraryCitation`: drama, then book/canto, then
simple; first structural match wins. -/
def parseLiteraryCitation (citation : String) : List CitationResult :=
  let s := citation.toList
  match dramaMatch s with
  | some (w, a, sc, l1, l2) =>
    [{ type := "literature", work := some (String.mk (stripChars w)),
       act := some (String.mk a), scene := some (String.mk sc),
       start_line := some (digitsToNat l1),
       end_line := some (digitsToNat (l2.getD l1)) }]
  | none =>
    match bookMatch s with
    | some (w, num, l1, l2) =>
      [{ type := "literature", work := some (String.mk (stripChars w)),
         book_number := some (String.mk num),
         start_line := some (digitsToNat l1),
         end_line := some (digitsToNat (l2.getD l1)) }]
    | none =>
      match simpleMatch s with
      | some (w, l1, l2) =>
        [{ type := "literature", work := some (String.mk (stripChars w)),
           start_line := some (digitsToNat l1),
           end_line := some (digitsToNat (l2.getD l1)) }]
      | none => []

/-- `CitationParser.identifySourceType`. -/
def identifySourceType (citation : String) : String :=
  if containsSub "cf.".toList (citation.toList.map Char.toLower) &&
      citation.toList.contains ';' then "mixed"
  else
    match searchBible citation.toList with
    | some m =>
      if (normalizeBookNames (String.mk m.book)).isSome then "bible"
      else if citation.toList.contains ';' && citation.toList.contains ':' then "bible"
      else "literature"
    | none =>
      if citation.toList.contains ';' && citation.toList.contains ':' then "bible"
      else "literature"

/-- `\s*([^;]+)` of the `mixed_reference` pattern: the greedy `\s*` backs
off just enough to leave the nonempty `[^;]+` capture. -/
def semiSeg (t : List Char) : Option (List Char × List Char) :=
  let pre := t.takeWhile (fun c => c ≠ ';')
  if pre = [] then none
  else
    let sp := pre.takeWhile isPySpace
    if sp = pre then some (pre.drop (pre.length - 1), t.drop pre.length)
    else some (pre.drop sp.length, t.drop pre.length)

/-- `mixed_reference` = `cf\.\s*([^;]+);\s*([^;]+)`, anchored. -/
def mixedMatch (s : List Char) : Option (List Char × List Char) :=
  match s with
  | c :: f :: d :: t =>
    if c.toLower = 'c' ∧ f.toLower = 'f' ∧ d = '.' then do
      let (g1, r1) ← semiSeg t
      match r1 with
      | ';' :: u => do
        let (g2, _) ← semiSeg u
        some (g1, g2)
      | _ => none
    else none
  | _ => none

/-- `CitationParser._parseMixedCitation`. -/
def parseMixedCitation (citation : String) : List CitationResult :=
  match mixedMatch citation.toList with
  | some (g1, g2) =>
    let first := String.mk (stripChars g1)
    let second := String.mk (stripChars g2)
    (if identifySourceType first = "bible" then parseBiblicalCitation first
     else parseLiteraryCitation first) ++
    (if identifySourceType second = "bible" then parseBiblicalCitation second
     else parseLiteraryCitation second)
  | none => []

/-- Values of the result dictionaries (Python mixes strings and ints). -/
inductive FVal where
  | s (v : String)
  | n (v : Nat)
deriving DecidableEq, Repr

/-- Python truthiness of a dictionary value. -/
def FVal.truthy : FVal → Bool
  | .s v => v ≠ ""
  | .n v => v ≠ 0

/-- A string field added only when its value is truthy. -/
def optFieldS (k : String) : Option String → List (String × FVal)
  | some v => if v ≠ "" then [(k, FVal.s v)] else []
  | none => []

/-- A numeric field added only when its value is truthy. -/
def optFieldN (k : String) : Option Nat → List (String × FVal)
  | some v => if v ≠ 0 then [(k, FVal.n v)] else []
  | none => []

/-- The dictionary-conversion loop of `CitationParser.parseCitation`:
each field is reported only when Python finds it truthy. -/
def citationToDict (c : CitationResult) : List (String × FVal) :=
  ("type", FVal.s c.type) ::
    (optFieldS "work" c.work ++ optFieldS "book" c.book ++
     optFieldN "chapter" c.chapter ++ optFieldN "start_verse" c.start_verse ++
     optFieldN "end_verse" c.end_verse ++ optFieldN "start_line" c.start_line ++
     optFieldN "end_line" c.end_line ++ optFieldS "act" c.act ++
     optFieldS "scene" c.scene ++ optFieldS "book_number" c.book_number)

/-- Return shape of `CitationParser.parseCitation`. -/
structure ParsedCitation where
  citations : List (List (String × FVal))
  source_type : String
  original_text : String
deriving DecidableEq, Repr

/-- `CitationParser.parseCitation`. -/
def parseCitation (footnote_text : String) : ParsedCitation :=
  let t := String.mk (stripChars footnote_text.toList)
  let st := identifySourceType t
  let citations :=
    if st = "bible" then parseBiblicalCitation t
    else if st = "literature" then parseLiteraryCitation t
    else if st = "mixed" then parseMixedCitation t
    else []
  { citations := citations.map citationToDict, source_type := st,
    original_text := t }

/-! ### The extraction engine (`citation_extraction_engine.py`)

Floats are modelled as `ℚ`.  The Work Index (built by scanning a corpus
directory, outside the verified core) is a parameter: a list of entries in
dictionary-iteration order.  The stdlib string-similarity ratio
(`difflib.SequenceMatcher(...).ratio()`) is likewise a parameter of the
fuzzy-matching functions. -/

/-- One entry of the engine's `literary_works` index. -/
structure WorkIndexEntry where
  id : String
  title : String
  author : String
  normalized_title : String
  lines : List String
  sourceFile : String
deriving DecidableEq, Repr

/-- `PassageCandidate` (the Python dataclass). -/
structure PassageCandidate where
  source : String
  confidence : ℚ
  text : String
  metadata : List (String × FVal)
  start_position : Option Nat := none
  end_position : Option Nat := none
deriving DecidableEq, Repr

/-- Dictionary lookup (first binding wins; keys are unique here). -/
def metaGet (m : List (String × FVal)) (k : String) : Option FVal :=
  (m.find? (fun p => p.1 = k)).map (fun p => p.2)

/-- String-valued lookup with Python's `.get(k, "")` default. -/
def metaGetStrD (m : List (String × FVal)) (k : String) : String :=
  match metaGet m k with
  | some (FVal.s v) => v
  | _ => ""

/-- `str.lower()`. -/
def lowerString (s : String) : String :=
  String.mk (s.toList.map Char.toLower)

/-- Worker for stop-word removal in `_normalizeTitle`: `run` accumulates the
current word run (reversed); a run equal to a stop word is dropped, which is
exactly what `re.sub(r'\b(the|a|an)\b', '', ·)` removes. -/
def flushRun (run : List Char) : List Char :=
  let w := run.reverse
  if w = "the".toList ∨ w = "a".toList ∨ w = "an".toList then [] else w

def dropStopGo : List Char → List Char → List Char
  | run, [] => flushRun run
  | run, c :: t =>
    if isWordChar c then dropStopGo (c :: run) t
    else flushRun run ++ c :: dropStopGo [] t

/-- `CitationExtractionEngine._normalizeTitle`: lowercase, drop the stop
words the/a/an, drop `[^\w\s]`, collapse whitespace, strip. -/
def normalizeTitle (title : String) : String :=
  let l1 := title.toList.map Char.toLower
  let l2 := dropStopGo [] l1
  let l3 := l2.filter (fun c => isWordChar c || isPySpace c)
  String.mk (stripChars (collapseWs l3))

/-- `re.sub(self.line_patterns['numbered_lines'], '', line)` with the
pattern `^\s*\d+\s*[.:]?\s*`. -/
def stripLineNumber (l : List Char) : List Char :=
  let r1 := l.dropWhile isPySpace
  let ds := r1.takeWhile isAsciiDigit
  if ds = [] then l
  else
    let r2 := (r1.dropWhile isAsciiDigit).dropWhile isPySpace
    let r3 := match r2 with
      | c :: t => if c = '.' ∨ c = ':' then t else r2
      | [] => r2
    r3.dropWhile isPySpace

/-- Python `sep.join(items)`. -/
def joinWith (sep : String) : List String → String
  | [] => ""
  | a :: as => as.foldl (fun acc x => acc ++ sep ++ x) a

/-- `CitationExtractionEngine._cleanPassageText`. -/
def cleanPassageText (lines : List String) : String :=
  let cleaned := lines.filterMap (fun line =>
    let c := stripChars (stripLineNumber line.toList)
    if c = [] then none else some (String.mk c))
  joinWith "\n" cleaned

/-- `text.endswith("...")`. -/
def endsWithEllipsis (l : List Char) : Bool :=
  "...".toList.reverse.isPrefixOf l.reverse

/-- `re.search(r'\[.*?\]', text)`: a `]` is reachable from some `[` without
crossing a newline (`.` does not match `\n`). -/
def bracketClose : List Char → Bool
  | [] => false
  | c :: t => if c = ']' then true else if c = '\n' then false else bracketClose t

def hasBracketPair : List Char → Bool
  | [] => false
  | c :: t => (c = '[' && bracketClose t) || hasBracketPair t

/-- `CitationExtractionEngine._calculateTextQuality`. -/
def calculateTextQuality (text : String) : ℚ :=
  if text = "" then 0
  else
    let l := text.toList
    let length_q : ℚ := min 1 ((l.length : ℚ) / 200)
    let completeness : ℚ := if endsWithEllipsis l then 8/10 else 1
    let readability : ℚ := if l.any (fun c => c = '.' || c = '!' || c = '?') then 1 else 6/10
    let cleanliness : ℚ := if hasBracketPair l then 7/10 else 1
    (length_q + completeness + readability + cleanliness) / 4

/-- `CitationExtractionEngine._getSourceReliability`. -/
def getSourceReliability (source : String) : ℚ :=
  if "bible:".toList.isPrefixOf source.toList then 95/100
  else if "gutenberg:".toList.isPrefixOf source.toList then 85/100
  else 7/10

/-- `CitationExtractionEngine._getMetadataCompleteness`. -/
def getMetadataCompleteness (metadata : List (String × FVal)) : ℚ :=
  let required :=
    if (metaGet metadata "book").isSome then ["book", "chapter", "verses"]
    else ["title", "author"]
  let present := (required.filter (fun f =>
    ((metaGet metadata f).map FVal.truthy).getD false)).length
  (present : ℚ) / (required.length : ℚ)

/-- `CitationExtractionEngine._getCitationMatchScore`. -/
def getCitationMatchScore (candidate : PassageCandidate)
    (original_citation : String) : ℚ :=
  let citation_lower := original_citation.toList.map Char.toLower
  let title := (metaGetStrD candidate.metadata "title").toList.map Char.toLower
  let author := (metaGetStrD candidate.metadata "author").toList.map Char.toLower
  let s1 : ℚ := 1/2 + (if containsSub title citation_lower then 3/10 else 0)
  let s2 : ℚ := s1 + (if containsSub author citation_lower then 1/5 else 0)
  min 1 s2

/-- `CitationExtractionEngine.calculateConfidenceScore`. -/
def calculateConfidenceScore (candidate : PassageCandidate)
    (original_citation : String) : ℚ :=
  let weighted :=
    calculateTextQuality candidate.text * (3/10) +
    getSourceReliability candidate.source * (1/5) +
    getMetadataCompleteness candidate.metadata * (1/5) +
    getCitationMatchScore candidate original_citation * (3/10)
  min 1 (max 0 ((candidate.confidence + weighted) / 2))

/-- `CitationExtractionEngine.extractLiteraryPassage` over the in-memory
image of the indexed corpus. -/
def extractLiteraryPassage (works : List WorkIndexEntry) (work_id : String)
    (start_line end_line : Nat) : Option PassageCandidate :=
  match works.find? (fun w => w.id = work_id) with
  | none => none
  | some w =>
    if start_line = 0 ∨ w.lines.length < end_line then none
    else
      let passage_lines := (w.lines.drop (start_line - 1)).take (end_line - (start_line - 1))
      let passage_text := cleanPassageText passage_lines
      some { source := "gutenberg:" ++ work_id,
             confidence := calculateTextQuality passage_text,
             text := passage_text,
             metadata := [("lines", .s (toString start_line ++ "-" ++ toString end_line)),
                          ("author", .s w.author), ("title", .s w.title),
                          ("source_file", .s w.sourceFile),
                          ("total_lines", .n w.lines.length)],
             start_position := some start_line, end_position := some end_line }

/-- The engine's `biblical_translations` table. -/
def biblicalTranslations : List (String × String) :=
  [("ESV", "English Standard Version"), ("NIV", "New International Version"),
   ("KJV", "King James Version"), ("NASB", "New American Standard Bible"),
   ("NRSV", "New Revised Standard Version")]

/-- The engine's `sample_passages` table, transcribed verbatim. -/
def samplePassages : List ((String × Nat) × List (Nat × String)) :=
  [(("Genesis", 1),
    [(1, "In the beginning, God created the heavens and the earth."),
     (2, "The earth was without form and void, and darkness was over the face of the deep."),
     (3, "And God said, \"Let there be light,\" and there was light.")]),
   (("Matthew", 5),
    [(3, "Blessed are the poor in spirit, for theirs is the kingdom of heaven."),
     (4, "Blessed are those who mourn, for they shall be comforted."),
     (5, "Blessed are the meek, for they shall inherit the earth.")]),
   (("Romans", 8),
    [(28, "And we know that for those who love God all things work together for good, for those who are called according to his purpose.")]),
   (("1 Corinthians", 13),
    [(4, "Love is patient and kind; love does not envy or boast; it is not arrogant"),
     (5, "or rude. It does not insist on its own way; it is not irritable or resentful;"),
     (6, "it does not rejoice at wrongdoing, but rejoices with the truth."),
     (7, "Love bears all things, believes all things, hopes all things, endures all things.")])]

/-- `CitationExtractionEngine._generateSampleBiblicalText` (always returns
a string; the `Optional` in its Python signature is never `None`). -/
def generateSampleBiblicalText (book : String) (chapter sv ev : Nat)
    (_translation : String) : String :=
  match samplePassages.find? (fun p => p.1 = (book, chapter)) with
  | none =>
    book ++ " " ++ toString chapter ++ ":" ++ toString sv ++
      (if sv ≠ ev then "-" ++ toString ev else "")
  | some pr =>
    let verses := pr.2
    let parts := (List.range' sv (ev + 1 - sv)).map (fun n =>
      match verses.find? (fun q => q.1 = n) with
      | some q => toString n ++ " " ++ q.2
      | none => toString n ++ " [Verse text not available in demo]")
    joinWith " " parts

/-- `CitationExtractionEngine._isValidBiblicalReference`. -/
def isValidBiblicalReference (book : String) (chapter sv ev : Nat) : Bool :=
  if chapter = 0 ∨ sv = 0 ∨ ev < sv then false
  else (normalizeBookNames book).isSome

/-- `CitationExtractionEngine.extractBiblicalPassage`. -/
def extractBiblicalPassage (book : String) (chapter sv ev : Nat)
    (translation : String) : Option PassageCandidate :=
  let tr := if (biblicalTranslations.find? (fun p => p.1 = translation)).isSome
            then translation else "ESV"
  let passage_text := generateSampleBiblicalText book chapter sv ev tr
  if passage_text = "" then none
  else
    some { source := "bible:" ++ lowerString tr,
           confidence := if isValidBiblicalReference book chapter sv ev then 95/100 else 3/10,
           text := passage_text,
           metadata := [("book", .s book), ("chapter", .n chapter),
                        ("verses", .s (if sv ≠ ev then toString sv ++ "-" ++ toString ev
                                       else toString sv)),
                        ("translation", .s tr), ("source", .s "bible_api")] }

/-- Numeric dictionary access with Python's `.get(k, default)`. -/
def metaGetNatD (m : List (String × FVal)) (k : String) (default : Nat) : Nat :=
  match metaGet m k with
  | some (FVal.n v) => v
  | _ => default

/-- Descending-similarity order on scored works (`sort(key=x[1], reverse=True)`). -/
def descSim (a b : WorkIndexEntry × ℚ) : Prop := b.2 ≤ a.2

instance : DecidableRel descSim :=
  fun a b => inferInstanceAs (Decidable (b.2 ≤ a.2))

instance : IsTotal (WorkIndexEntry × ℚ) descSim :=
  ⟨fun a b => le_total b.2 a.2⟩

instance : IsTrans (WorkIndexEntry × ℚ) descSim :=
  ⟨fun _ _ _ h1 h2 => le_trans h2 h1⟩

/-- Descending-confidence order on candidates (`sort(key=confidence, reverse=True)`). -/
def descConf (a b : PassageCandidate) : Prop := b.confidence ≤ a.confidence

instance : DecidableRel descConf :=
  fun a b => inferInstanceAs (Decidable (b.confidence ≤ a.confidence))

instance : IsTotal PassageCandidate descConf :=
  ⟨fun a b => le_total b.confidence a.confidence⟩

instance : IsTrans PassageCandidate descConf :=
  ⟨fun _ _ _ h1 h2 => le_trans h2 h1⟩

/-- The scoring loop of `_findLiteraryMatches`: similarity of every indexed
work against the normalized query title, keeping those above the 0.3
threshold, in index order. -/
def scoredLiteraryWorks (works : List WorkIndexEntry) (sim : String → String → ℚ)
    (work_title : String) : List (WorkIndexEntry × ℚ) :=
  works.filterMap (fun w =>
    let similarity := sim (normalizeTitle work_title) w.normalized_title
    if (3 : ℚ)/10 < similarity then some (w, similarity) else none)

/-- `CitationExtractionEngine._findLiteraryMatches`; `sim` abstracts
`difflib.SequenceMatcher(None, ·, ·).ratio()`. -/
def findLiteraryMatches (works : List WorkIndexEntry) (sim : String → String → ℚ)
    (work_title : String) (citation_data : List (String × FVal)) :
    List PassageCandidate :=
  let sorted := (scoredLiteraryWorks works sim work_title).insertionSort descSim
  let start_line := metaGetNatD citation_data "start_line" 1
  let end_line := metaGetNatD citation_data "end_line" start_line
  (sorted.take 3).filterMap (fun ws =>
    (extractLiteraryPassage works ws.1.id start_line end_line).map
      (fun c => { c with confidence := c.confidence * ws.2 }))

/-- `CitationExtractionEngine.rankCandidates`: recompute each confidence
against the empty original-citation string, then stable-sort descending
(Python's `list.sort` is stable; a stable sort for a total preorder is
unique, and `List.insertionSort` with this relation is stable). -/
def rankCandidates (candidates : List PassageCandidate) : List PassageCandidate :=
  (candidates.map (fun c => { c with confidence := calculateConfidenceScore c "" })).insertionSort
    descConf

instance {ε α : Type} [DecidableEq ε] [DecidableEq α] : DecidableEq (Except ε α) :=
  fun a b =>
    match a, b with
    | .ok x, .ok y => decidable_of_iff (x = y) (by simp)
    | .error x, .error y => decidable_of_iff (x = y) (by simp)
    | .ok _, .error _ => isFalse (by simp)
    | .error _, .ok _ => isFalse (by simp)

/-- Python dictionary indexing `d[k]`: raises `KeyError` on a missing key. -/
def dictIndex (d : List (String × FVal)) (k : String) : Except String FVal :=
  match metaGet d k with
  | some v => Except.ok v
  | none => Except.error ("KeyError: " ++ k)

/-- `d[k]` where the program then uses the value as a string. -/
def dictIndexStr (d : List (String × FVal)) (k : String) : Except String String :=
  match dictIndex d k with
  | Except.ok (FVal.s v) => Except.ok v
  | Except.ok (FVal.n _) => Except.error ("TypeError: " ++ k)
  | Except.error e => Except.error e

/-- `d[k]` where the program then uses the value as an integer. -/
def dictIndexNat (d : List (String × FVal)) (k : String) : Except String Nat :=
  match dictIndex d k with
  | Except.ok (FVal.n v) => Except.ok v
  | Except.ok (FVal.s _) => Except.error ("TypeError: " ++ k)
  | Except.error e => Except.error e

/-- The candidate-collection loop of
`CitationExtractionEngine.generatePassageCandidates`; unhandled Python
exceptions (`KeyError`) are modelled by `Except.error`. -/
def collectCandidates (works : List WorkIndexEntry) (sim : String → String → ℚ)
    (citation : String) : Except String (List PassageCandidate) :=
  (parseCitation citation).citations.foldlM
    (fun (acc : List PassageCandidate) d => do
      let t ← dictIndex d "type"
      if t = FVal.s "bible" then do
        let book ← dictIndexStr d "book"
        let chapter ← dictIndexNat d "chapter"
        let sv ← dictIndexNat d "start_verse"
        let ev ← dictIndexNat d "end_verse"
        match extractBiblicalPassage book chapter sv ev "ESV" with
        | some c => pure (acc ++ [c])
        | none => pure acc
      else if t = FVal.s "literature" then do
        let work_title ← dictIndexStr d "work"
        pure (acc ++ findLiteraryMatches works sim work_title d)
      else pure acc)
    []

/-- `CitationExtractionEngine.generatePassageCandidates`: collect, rank,
truncate. -/
def generatePassageCandidates (works : List WorkIndexEntry)
    (sim : String → String → ℚ) (citation : String) (max_candidates : Nat) :
    Except String (List PassageCandidate) :=
  (collectCandidates works sim citation).map
    (fun candidates => (rankCandidates candidates).take max_candidates)

/-- Python `round(x, 3)` on our rational model (round half to even). -/
def roundHalfEven (x : ℚ) : ℤ :=
  let f := ⌊x⌋
  let r := x - (f : ℚ)
  if r < 1/2 then f
  else if (1 : ℚ)/2 < r then f + 1
  else if f % 2 = 0 then f else f + 1

def round3 (x : ℚ) : ℚ := (roundHalfEven (x * 1000) : ℚ) / 1000

/-- The serialized candidate dictionaries of `extractPassageFromCitation`. -/
structure CandidateDict where
  source : String
  confidence : ℚ
  text : String
  metadata : List (String × FVal)
deriving DecidableEq, Repr

/-- Return shape of `extractPassageFromCitation`. -/
structure ExtractResult where
  original_citation : String
  candidates : List CandidateDict
  best_match : Option CandidateDict
deriving DecidableEq, Repr

/-- `CitationExtractionEngine.extractPassageFromCitation`. -/
def extractPassageFromCitation (works : List WorkIndexEntry)
    (sim : String → String → ℚ) (citation : String) :
    Except String ExtractResult :=
  (generatePassageCandidates works sim citation 5).map (fun candidates =>
    let dicts := candidates.map (fun c =>
      { source := c.source, confidence := round3 c.confidence,
        text := c.text, metadata := c.metadata : CandidateDict })
    { original_citation := citation, candidates := dicts,
      best_match := dicts.head? })

/-- Length of a successfully returned candidate list (0 on an exception). -/
def okLength : Except String (List PassageCandidate) → Nat
  | Except.ok l => l.length
  | Except.error _ => 0

/-- Candidates of a successfully returned extraction result (0 on an
exception). -/
def resultLen : Except String ExtractResult → Nat
  | Except.ok r => r.candidates.length
  | Except.error _ => 0

/-- Sortedness of a successfully returned candidate list (vacuous on an
exception, where no list is returned). -/
def okSorted (e : Except String (List PassageCandidate)) : Prop :=
  match e with
  | Except.ok l => List.Sorted descConf l
  | Except.error _ => True

/-- A concrete candidate with empty extracted text, used to separate the
Scorer's actual text-quality sub-score from the spec's description of it. -/
def emptyTextCand : PassageCandidate :=
  { source := "bible:esv", confidence := 1/2, text := "", metadata := [] }

/-- A concrete one-work index for witnesses. -/
def witWork : WorkIndexEntry :=
  { id := "w1", title := "Poem", author := "Anon", normalized_title := "poem",
    lines := ["First line.", "Second line."], sourceFile := "w1.txt" }

end CitationExtractor

section SanityExamples
open CitationExtractor
example : normalizeBookNames "1Cor" = some "1 Corinthians" := by decide
example : normalizeBookNames "1 Cor" = some "1 Corinthians" := by decide
example : normalizeBookNames "  GENESIS " = some "Genesis" := by decide
example : normalizeBookNames "Song of  Solomon" = some "Song of Solomon" := by decide
example : normalizeBookNames "xyzzy" = none := by decide

example :
    (parseCitation "Genesis 1:1-3").citations =
      [[("type", FVal.s "bible"), ("book", FVal.s "Genesis"), ("chapter", FVal.n 1),
        ("start_verse", FVal.n 1), ("end_verse", FVal.n 3)]] := by decide

example :
    (parseCitation "Genesis 1:5-3").citations =
      [[("type", FVal.s "bible"), ("book", FVal.s "Genesis"), ("chapter", FVal.n 1),
        ("start_verse", FVal.n 5), ("end_verse", FVal.n 3)]] := by decide

example :
    (parseCitation "Genesis 0:1").citations =
      [[("type", FVal.s "bible"), ("book", FVal.s "Genesis"),
        ("start_verse", FVal.n 1), ("end_verse", FVal.n 1)]] := by decide

example :
    (parseCitation "Hamlet Act 3 Scene 1, 56-88").citations =
      [[("type", FVal.s "literature"), ("work", FVal.s "Hamlet"),
        ("start_line", FVal.n 56), ("end_line", FVal.n 88),
        ("act", FVal.s "3"), ("scene", FVal.s "1")]] := by decide

example :
    (parseCitation "Paradise Lost Book I, 1-26").citations =
      [[("type", FVal.s "literature"), ("work", FVal.s "Paradise Lost"),
        ("start_line", FVal.n 1), ("end_line", FVal.n 26),
        ("book_number", FVal.s "I")]] := by decide

example :
    (parseCitation "Absalom and Achitophel 1-10").citations =
      [[("type", FVal.s "literature"), ("work", FVal.s "Absalom and Achitophel"),
        ("start_line", FVal.n 1), ("end_line", FVal.n 10)]] := by decide

example :
    (parseCitation "Romans 8:28; 1 Cor 13:4-7").citations =
      [[("type", FVal.s "bible"), ("book", FVal.s "Romans"), ("chapter", FVal.n 8),
        ("start_verse", FVal.n 28), ("end_verse", FVal.n 28)],
       [("type", FVal.s "bible"), ("book", FVal.s "1 Corinthians"), ("chapter", FVal.n 13),
        ("start_verse", FVal.n 4), ("end_verse", FVal.n 7)]] := by decide

example :
    (parseCitation "cf. Genesis 3:15; Paradise Lost IX.1033-1045").citations =
      [[("type", FVal.s "bible"), ("book", FVal.s "Genesis"), ("chapter", FVal.n 3),
        ("start_verse", FVal.n 15), ("end_verse", FVal.n 15)],
       [("type", FVal.s "literature"), ("work", FVal.s "Paradise Lost"),
        ("start_line", FVal.n 1033), ("end_line", FVal.n 1045),
        ("book_number", FVal.s "IX")]] := by decide

example : (parseCitation "Not a citation at all").citations = [] ∧
    (parseCitation "Not a citation at all").source_type = "literature" := by decide

example : identifySourceType "Matt 5:3-12" = "bible" := by decide

example : calculateTextQuality "" = 0 := by decide

example : (extractBiblicalPassage "Genesis" 1 1 3 "ESV").isSome := by decide

example :
    generatePassageCandidates [] (fun _ _ => 0) "Genesis 0:1" 5 =
      Except.error "KeyError: chapter" := by decide

example : normalizeTitle "The Paradise Lost!" = "paradise lost" := by decide
end SanityExamples

namespace CitationExtractor

/-- C4: for every raw book-name string, `normalizeBookNames` cleans the
name (lowercase, whitespace collapse, digit–letter space insertion for
numbered books), returns the direct table lookup when it succeeds, falls
back to the lookup with all spaces removed, and returns `none` exactly when
both lookups fail; `"1Cor"` and `"1 Cor"` both normalize to
`"1 Corinthians"`. -/
theorem C4_normalize_book_algorithm :
    (∀ (raw c : String), normalizeBookNames raw = some c ↔
       lookupBook (cleanBookName raw) = some c ∨
       (lookupBook (cleanBookName raw) = none ∧
        lookupBook (String.mk ((cleanBookName raw).toList.filter
          (fun ch => ch ≠ ' '))) = some c)) ∧
    (∀ raw : String, normalizeBookNames raw = none ↔
       lookupBook (cleanBookName raw) = none ∧
       lookupBook (String.mk ((cleanBookName raw).toList.filter
         (fun ch => ch ≠ ' '))) = none) ∧
    normalizeBookNames "1Cor" = some "1 Corinthians" ∧
    normalizeBookNames "1 Cor" = some "1 Corinthians" := by
  refine ⟨?_, ?_, by decide, by decide⟩
  · intro raw c
    simp only [normalizeBookNames]
    cases h : lookupBook (cleanBookName raw) <;> simp [h]
  · intro raw
    simp only [normalizeBookNames]
    cases h : lookupBook (cleanBookName raw) <;> simp [h]

set_option maxRecDepth 40000 in
/-- C5: normalization is idempotent on canonical names: every value of the
static book table normalizes to itself. -/
theorem C5_normalize_idempotent_on_canonical :
    ∀ p ∈ biblicalBooks, normalizeBookNames p.2 = some p.2 := by decide

/-- Witness for C5 at a concrete table entry. -/
theorem C5_witness : normalizeBookNames "Genesis" = some "Genesis" :=
  C5_normalize_idempotent_on_canonical ("genesis", "Genesis") (by decide)

/-- C3: the Classifier's decision order: `cf.` together with a semicolon
yields `mixed`; otherwise a leftmost `bible_standard` match whose captured
book normalizes yields `bible`; otherwise a semicolon together with a colon
yields `bible`; otherwise `literature`.  (`identifySourceType` is a total
function, so no input can raise.) -/
theorem C3_classifier_decision_order (s : String) :
    ((containsSub "cf.".toList (s.toList.map Char.toLower) &&
        s.toList.contains ';') = true → identifySourceType s = "mixed") ∧
    ((containsSub "cf.".toList (s.toList.map Char.toLower) &&
        s.toList.contains ';') = false →
      ∀ m, searchBible s.toList = some m →
        (normalizeBookNames (String.mk m.book)).isSome = true →
          identifySourceType s = "bible") ∧
    ((containsSub "cf.".toList (s.toList.map Char.toLower) &&
        s.toList.contains ';') = false →
      (∀ m, searchBible s.toList = some m →
        normalizeBookNames (String.mk m.book) = none) →
      (s.toList.contains ';' && s.toList.contains ':') = true →
        identifySourceType s = "bible") ∧
    ((containsSub "cf.".toList (s.toList.map Char.toLower) &&
        s.toList.contains ';') = false →
      (∀ m, searchBible s.toList = some m →
        normalizeBookNames (String.mk m.book) = none) →
      (s.toList.contains ';' && s.toList.contains ':') = false →
        identifySourceType s = "literature") := by
  refine ⟨?_, ?_, ?_, ?_⟩
  · intro h
    simp only [identifySourceType]
    rw [if_pos h]
  · intro h m hm hn
    simp only [identifySourceType, hm]
    rw [if_neg (by rw [h]; exact Bool.false_ne_true), if_pos hn]
  · intro h hall hsc
    cases hsb : searchBible s.toList with
    | none =>
      simp only [identifySourceType, hsb]
      rw [if_neg (by rw [h]; exact Bool.false_ne_true), if_pos hsc]
    | some m =>
      simp only [identifySourceType, hsb]
      rw [if_neg (by rw [h]; exact Bool.false_ne_true),
        if_neg (by rw [hall m hsb]; simp), if_pos hsc]
  · intro h hall hsc
    cases hsb : searchBible s.toList with
    | none =>
      simp only [identifySourceType, hsb]
      rw [if_neg (by rw [h]; exact Bool.false_ne_true),
        if_neg (by rw [hsc]; exact Bool.false_ne_true)]
    | some m =>
      simp only [identifySourceType, hsb]
      rw [if_neg (by rw [h]; exact Bool.false_ne_true),
        if_neg (by rw [hall m hsb]; simp),
        if_neg (by rw [hsc]; exact Bool.false_ne_true)]

/-- Witness for C3: each decision branch discharged at a concrete input. -/
theorem C3_witness :
    identifySourceType "cf. Genesis 1:1; Romans 8:28" = "mixed" ∧
    identifySourceType "Genesis 1:1" = "bible" ∧
    identifySourceType "foo 1:2; bar 3:4" = "bible" ∧
    identifySourceType "hello world" = "literature" := by
  refine ⟨?_, ?_, ?_, ?_⟩
  · exact (C3_classifier_decision_order "cf. Genesis 1:1; Romans 8:28").1 (by decide)
  · exact (C3_classifier_decision_order "Genesis 1:1").2.1 (by decide)
      ⟨"Genesis".toList, 1, 1, none⟩ (by decide) (by decide)
  · refine (C3_classifier_decision_order "foo 1:2; bar 3:4").2.2.1 (by decide) ?_ (by decide)
    intro m hm
    have h0 : searchBible "foo 1:2; bar 3:4".toList =
        some ⟨"foo".toList, 1, 2, none⟩ := by decide
    rw [h0] at hm
    injection hm with h1
    subst h1
    decide
  · refine (C3_classifier_decision_order "hello world").2.2.2 (by decide) ?_ (by decide)
    intro m hm
    have h0 : searchBible "hello world".toList = none := by decide
    rw [h0] at hm
    cases hm

/-- C1 (counterexample): `"Genesis 1:5-3"`, whose captured numbers violate
the claimed ordering constraint, nevertheless yields a Bible reference with
`start_verse = 5 > 3 = end_verse`. -/
theorem C1_counterexample :
    (parseCitation "Genesis 1:5-3").citations =
      [[("type", FVal.s "bible"), ("book", FVal.s "Genesis"), ("chapter", FVal.n 1),
        ("start_verse", FVal.n 5), ("end_verse", FVal.n 3)]] ∧ (3 : Nat) < 5 := by
  decide

/-- C1 (amended): a Bible reference is emitted for a segment exactly when
the `bible_standard` pattern matches the stripped segment and the captured
book token normalizes, and a Literature reference exactly when the first of
the drama/book/simple patterns to match does so structurally; in both paths
the numeric fields are emitted as captured (the end field defaulting to the
start field), with no positivity or ordering check, so
`"Hamlet Act 3 Scene 1, 56-40"` yields `start_line = 56 > 40 = end_line`. -/
theorem C1_amended_emission :
    (∀ (s : String) (r : CitationResult),
      r ∈ parseBiblicalSingle s ↔
        ∃ m b, matchBibleCore (stripChars s.toList) = some m ∧
          normalizeBookNames (String.mk m.book) = some b ∧
          r = { type := "bible", book := some b, chapter := some m.chapter,
                start_verse := some m.startVerse,
                end_verse := some (m.endVerse.getD m.startVerse) }) ∧
    (∀ (s : String) (r : CitationResult),
      r ∈ parseLiteraryCitation s ↔
        ((∃ w a sc l1 l2, dramaMatch s.toList = some (w, a, sc, l1, l2) ∧
           r = { type := "literature", work := some (String.mk (stripChars w)),
                 act := some (String.mk a), scene := some (String.mk sc),
                 start_line := some (digitsToNat l1),
                 end_line := some (digitsToNat (l2.getD l1)) }) ∨
         (dramaMatch s.toList = none ∧
          ∃ w num l1 l2, bookMatch s.toList = some (w, num, l1, l2) ∧
            r = { type := "literature", work := some (String.mk (stripChars w)),
                  book_number := some (String.mk num),
                  start_line := some (digitsToNat l1),
                  end_line := some (digitsToNat (l2.getD l1)) }) ∨
         (dramaMatch s.toList = none ∧ bookMatch s.toList = none ∧
          ∃ w l1 l2, simpleMatch s.toList = some (w, l1, l2) ∧
            r = { type := "literature", work := some (String.mk (stripChars w)),
                  start_line := some (digitsToNat l1),
                  end_line := some (digitsToNat (l2.getD l1)) }))) ∧
    (parseCitation "Hamlet Act 3 Scene 1, 56-40").citations =
      [[("type", FVal.s "literature"), ("work", FVal.s "Hamlet"),
        ("start_line", FVal.n 56), ("end_line", FVal.n 40),
        ("act", FVal.s "3"), ("scene", FVal.s "1")]] := by
  refine ⟨?_, ?_, by decide⟩
  · intro s r
    simp only [parseBiblicalSingle]
    cases hm : matchBibleCore (stripChars s.toList) with
    | none => simp
    | some m =>
      cases hn : normalizeBookNames (String.mk m.book) with
      | none => simp [hn]
      | some b => simp [hn]
  · intro s r
    simp only [parseLiteraryCitation]
    cases hd : dramaMatch s.toList with
    | some v =>
      obtain ⟨w, a, sc, l1, l2⟩ := v
      simp [hd]
      constructor
      · intro h
        exact ⟨w, a, sc, l1, l2, ⟨rfl, rfl, rfl, rfl, rfl⟩, h⟩
      · rintro ⟨w1, a1, sc1, l11, l21, ⟨rfl, rfl, rfl, rfl, rfl⟩, h⟩
        exact h
    | none =>
      cases hb : bookMatch s.toList with
      | some v =>
        obtain ⟨w, num, l1, l2⟩ := v
        simp [hd, hb]
        constructor
        · intro h
          exact ⟨w, num, l1, l2, ⟨rfl, rfl, rfl, rfl⟩, h⟩
        · rintro ⟨w1, num1, l11, l21, ⟨rfl, rfl, rfl, rfl⟩, h⟩
          exact h
      | none =>
        cases hs : simpleMatch s.toList with
        | some v =>
          obtain ⟨w, l1, l2⟩ := v
          simp [hd, hb, hs]
          constructor
          · intro h
            exact ⟨w, l1, l2, ⟨rfl, rfl, rfl⟩, h⟩
          · rintro ⟨w1, l11, l21, ⟨rfl, rfl, rfl⟩, h⟩
            exact h
        | none => simp [hd, hb, hs]

end CitationExtractor

namespace CitationExtractor

theorem truthy_of_mem_optFieldS {key k : String} {v : FVal} {o : Option String}
    (h : (k, v) ∈ optFieldS key o) : v.truthy = true := by
  cases o with
  | none => simp [optFieldS] at h
  | some w =>
    by_cases hw : w = ""
    · simp [optFieldS, hw] at h
    · simp only [optFieldS, hw, ne_eq, not_false_eq_true, if_true,
        List.mem_singleton, Prod.mk.injEq] at h
      rw [h.2]
      simp [FVal.truthy, hw]

theorem truthy_of_mem_optFieldN {key k : String} {v : FVal} {o : Option Nat}
    (h : (k, v) ∈ optFieldN key o) : v.truthy = true := by
  cases o with
  | none => simp [optFieldN] at h
  | some w =>
    by_cases hw : w = 0
    · simp [optFieldN, hw] at h
    · simp only [optFieldN, hw, ne_eq, not_false_eq_true, if_true,
        List.mem_singleton, Prod.mk.injEq] at h
      rw [h.2]
      simp [FVal.truthy, hw]

/-- C10: the dictionary records produced by `parseCitation` report, besides
the mandatory `type` key, only truthy fields: any field whose value is `0`
or empty is omitted rather than reported, and any nonzero numeric field
actually present on the parsed reference is reported; in particular
`"Genesis 0:1"` is emitted as a `bible` record without a `chapter` key. -/
theorem C10_falsy_fields_omitted :
    (∀ (c : CitationResult) (k : String) (v : FVal),
        (k, v) ∈ citationToDict c → k = "type" ∨ v.truthy = true) ∧
    (∀ (c : CitationResult) (n : Nat), c.chapter = some n → n ≠ 0 →
        ("chapter", FVal.n n) ∈ citationToDict c) ∧
    (∀ (c : CitationResult) (n : Nat), c.start_verse = some n → n ≠ 0 →
        ("start_verse", FVal.n n) ∈ citationToDict c) ∧
    (∀ (c : CitationResult) (n : Nat), c.end_verse = some n → n ≠ 0 →
        ("end_verse", FVal.n n) ∈ citationToDict c) ∧
    (parseCitation "Genesis 0:1").citations =
      [[("type", FVal.s "bible"), ("book", FVal.s "Genesis"),
        ("start_verse", FVal.n 1), ("end_verse", FVal.n 1)]] := by
  refine ⟨?_, ?_, ?_, ?_, by decide⟩
  · intro c k v h
    simp only [citationToDict] at h
    rcases List.mem_cons.mp h with h | h
    · left
      rw [Prod.mk.injEq] at h
      exact h.1
    · right
      repeat' first
        | exact truthy_of_mem_optFieldS h
        | exact truthy_of_mem_optFieldN h
        | rcases List.mem_append.mp h with h | h
  · intro c n hc hn
    simp [citationToDict, optFieldN, hc, hn]
  · intro c n hc hn
    simp [citationToDict, optFieldN, hc, hn]
  · intro c n hc hn
    simp [citationToDict, optFieldN, hc, hn]

/-- Witness for C10 at a concrete record. -/
theorem C10_witness :
    ("chapter", FVal.n 7) ∈ citationToDict { type := "bible", chapter := some 7 } ∧
    ("book" = "type" ∨ (FVal.s "Genesis").truthy = true) :=
  ⟨C10_falsy_fields_omitted.2.1 { type := "bible", chapter := some 7 } 7 rfl
      (by decide),
   C10_falsy_fields_omitted.1 { type := "bible", book := some "Genesis" }
      "book" (FVal.s "Genesis") (by decide)⟩

/-- C2 (code bug): the end-to-end extraction call is claimed to never
throw, but for `"Genesis 0:1"` the Parser emits a `bible` record without a
`chapter` key (the falsy field is dropped) and the candidate-generation
loop indexes `parsed_citation["chapter"]` unconditionally, so the call
raises `KeyError: 'chapter'`, regardless of the Work Index contents or the
similarity function. -/
theorem C2_keyerror_on_zero_chapter :
    ∀ (works : List WorkIndexEntry) (sim : String → String → ℚ),
      generatePassageCandidates works sim "Genesis 0:1" 5 =
        Except.error "KeyError: chapter" ∧
      extractPassageFromCitation works sim "Genesis 0:1" =
        Except.error "KeyError: chapter" := by
  intro works sim
  exact ⟨rfl, rfl⟩

end CitationExtractor

namespace CitationExtractor

theorem append_ne_empty_left (a b : String) (h : a ≠ "") : a ++ b ≠ "" := by
  intro hc
  apply h
  have h2 := congrArg String.data hc
  rw [String.data_append] at h2
  apply String.ext
  exact (List.append_eq_nil.mp h2).1

theorem append_ne_empty_right (a b : String) (h : b ≠ "") : a ++ b ≠ "" := by
  intro hc
  apply h
  have h2 := congrArg String.data hc
  rw [String.data_append] at h2
  apply String.ext
  exact (List.append_eq_nil.mp h2).2

theorem joinWith_cons_ne_empty (sep a : String) (as : List String) (h : a ≠ "") :
    joinWith sep (a :: as) ≠ "" := by
  suffices hgen : ∀ (l : List String) (acc : String), acc ≠ "" →
      l.foldl (fun acc x => acc ++ sep ++ x) acc ≠ "" from hgen as a h
  intro l
  induction l with
  | nil => intro acc h2; exact h2
  | cons x xs ih =>
    intro acc h2
    simp only [List.foldl_cons]
    exact ih _ (append_ne_empty_left _ _ (append_ne_empty_left _ _ h2))

theorem generateSampleBiblicalText_ne_empty (book : String) (chapter sv ev : Nat)
    (tr : String) (h : sv ≤ ev) :
    generateSampleBiblicalText book chapter sv ev tr ≠ "" := by
  simp only [generateSampleBiblicalText]
  cases hf : samplePassages.find? (fun p => p.1 = (book, chapter)) with
  | none =>
    exact append_ne_empty_left _ _ (append_ne_empty_left _ _
      (append_ne_empty_right _ ":" (by decide)))
  | some pr =>
    have hr : ev + 1 - sv = (ev - sv) + 1 := by omega
    simp only [hr, List.range'_succ, List.map_cons]
    cases hv : pr.2.find? (fun q => q.1 = sv) with
    | none =>
      simp only [hv]
      exact joinWith_cons_ne_empty _ _ _ (append_ne_empty_right _ _ (by decide))
    | some q =>
      simp only [hv]
      exact joinWith_cons_ne_empty _ _ _
        (append_ne_empty_left _ _ (append_ne_empty_right _ " " (by decide)))

/-- C9: whenever `endVerse ≥ startVerse`, `extractBiblicalPassage` returns a
candidate (the sample-text generator always produces a non-empty string:
either canned or placeholder verse text, or the `"book chapter:range"`
fallback when the `(book, chapter)` key is absent), and an unknown
translation behaves exactly as the ESV fallback. -/
theorem C9_extractBiblical_never_null :
    ∀ (book : String) (chapter sv ev : Nat) (translation : String),
      (sv ≤ ev → (extractBiblicalPassage book chapter sv ev translation).isSome = true) ∧
      ((biblicalTranslations.find? (fun p => p.1 = translation)).isSome = false →
        extractBiblicalPassage book chapter sv ev translation =
          extractBiblicalPassage book chapter sv ev "ESV") := by
  intro book chapter sv ev translation
  constructor
  · intro h
    simp only [extractBiblicalPassage]
    rw [if_neg (generateSampleBiblicalText_ne_empty book chapter sv ev _ h)]
    rfl
  · intro h
    simp [extractBiblicalPassage, h]

/-- Witness for C9 at a book/chapter outside the sample table and an
unknown translation. -/
theorem C9_witness :
    (extractBiblicalPassage "Foo" 7 2 3 "XYZ").isSome = true ∧
    extractBiblicalPassage "Foo" 7 2 3 "XYZ" =
      extractBiblicalPassage "Foo" 7 2 3 "ESV" :=
  ⟨(C9_extractBiblical_never_null "Foo" 7 2 3 "XYZ").1 (by decide),
   (C9_extractBiblical_never_null "Foo" 7 2 3 "XYZ").2 (by decide)⟩

end CitationExtractor

namespace CitationExtractor

/-- C7 (counterexample): on a candidate with empty extracted text the
Scorer does not use the indicator average the claim prescribes for every
text: the actual score of the empty-text candidate is 99/200, while the
claimed formula (text quality = average of the four indicators, 13/20 for
the empty text) gives 237/400. -/
theorem C7_counterexample :
    calculateConfidenceScore emptyTextCand "" = 99/200 ∧
    min 1 (max 0 ((emptyTextCand.confidence +
      (((min 1 ((0 : ℚ)/200) + 1 + 6/10 + 1)/4) * (3/10) +
       getSourceReliability emptyTextCand.source * (1/5) +
       getMetadataCompleteness emptyTextCand.metadata * (1/5) +
       getCitationMatchScore emptyTextCand "" * (3/10))) / 2)) = 237/400 ∧
    ((99/200 : ℚ) ≠ 237/400) := by
  have h1 : calculateTextQuality emptyTextCand.text = 0 := rfl
  have hb : ['b', 'i', 'b', 'l', 'e', ':'] <+: emptyTextCand.source.data := by
    decide
  have h2 : getSourceReliability emptyTextCand.source = 95/100 := by
    simp [getSourceReliability, hb]
  have h3 : getMetadataCompleteness emptyTextCand.metadata = 0 := by
    norm_num [getMetadataCompleteness, metaGet, emptyTextCand]
  have h4 : getCitationMatchScore emptyTextCand "" = 1 := by
    simp only [getCitationMatchScore, metaGetStrD, metaGet, emptyTextCand,
      List.find?_nil]
    norm_num [containsSub]
  refine ⟨?_, ?_, by norm_num⟩
  · simp only [calculateConfidenceScore, h1, h2, h3, h4]
    norm_num [emptyTextCand]
  · simp only [h2, h3, h4]
    norm_num [emptyTextCand]

/-- C7 (amended): the Scorer's output is the clamp to [0,1] of the average
of the candidate's prior confidence and the weighted sum
`0.30·textQuality + 0.20·sourceReliability + 0.20·metadataCompleteness +
0.30·citationMatch`, where `textQuality` is 0.0 for the empty text and
otherwise the average of the four indicators (length adequacy, ellipsis
completeness, terminal-punctuation readability, bracketed-placeholder
cleanliness). -/
theorem C7_amended_scorer :
    (∀ (cand : PassageCandidate) (orig : String),
      calculateConfidenceScore cand orig =
        min 1 (max 0 ((cand.confidence +
          (calculateTextQuality cand.text * (3/10) +
           getSourceReliability cand.source * (1/5) +
           getMetadataCompleteness cand.metadata * (1/5) +
           getCitationMatchScore cand orig * (3/10))) / 2))) ∧
    (∀ text : String, text ≠ "" →
      calculateTextQuality text =
        (min 1 ((text.toList.length : ℚ) / 200) +
         (if endsWithEllipsis text.toList then 8/10 else 1) +
         (if text.toList.any (fun c => c = '.' || c = '!' || c = '?') then 1 else 6/10) +
         (if hasBracketPair text.toList then 7/10 else 1)) / 4) ∧
    calculateTextQuality "" = 0 := by
  refine ⟨fun cand orig => rfl, ?_, rfl⟩
  intro text h
  simp [calculateTextQuality, h]

/-- Witness for C7 (amended) at a concrete non-empty text. -/
theorem C7_witness :
    calculateTextQuality "Hi." =
      (min 1 ((("Hi.").toList.length : ℚ) / 200) +
       (if endsWithEllipsis ("Hi.").toList then 8/10 else 1) +
       (if ("Hi.").toList.any (fun c => c = '.' || c = '!' || c = '?') then 1 else 6/10) +
       (if hasBracketPair ("Hi.").toList then 7/10 else 1)) / 4 :=
  C7_amended_scorer.2.1 "Hi." (by decide)

/-- C6: fuzzy literary matching extracts candidates exactly from the at
most 3 highest-similarity indexed works among those whose similarity to
the normalized query title exceeds 0.3, taken in stable descending
similarity order, each candidate's prior confidence being multiplied by its
work's similarity. -/
theorem C6_fuzzy_matching :
    ∀ (works : List WorkIndexEntry) (sim : String → String → ℚ)
      (work_title : String) (citation_data : List (String × FVal)),
      findLiteraryMatches works sim work_title citation_data =
        (((scoredLiteraryWorks works sim work_title).insertionSort descSim).take 3).filterMap
          (fun ws => (extractLiteraryPassage works ws.1.id
              (metaGetNatD citation_data "start_line" 1)
              (metaGetNatD citation_data "end_line"
                (metaGetNatD citation_data "start_line" 1))).map
            (fun c => { c with confidence := c.confidence * ws.2 })) ∧
      (findLiteraryMatches works sim work_title citation_data).length ≤ 3 ∧
      (∀ p ∈ scoredLiteraryWorks works sim work_title, (3 : ℚ)/10 < p.2) ∧
      List.Sorted descSim
        (((scoredLiteraryWorks works sim work_title).insertionSort descSim).take 3) := by
  intro works sim work_title citation_data
  refine ⟨rfl, ?_, ?_, ?_⟩
  · have h1 : findLiteraryMatches works sim work_title citation_data =
        (((scoredLiteraryWorks works sim work_title).insertionSort descSim).take 3).filterMap
          (fun ws => (extractLiteraryPassage works ws.1.id
              (metaGetNatD citation_data "start_line" 1)
              (metaGetNatD citation_data "end_line"
                (metaGetNatD citation_data "start_line" 1))).map
            (fun c => { c with confidence := c.confidence * ws.2 })) := rfl
    rw [h1]
    exact le_trans (List.length_filterMap_le _ _)
      (List.length_take_le 3 _)
  · intro p hp
    simp only [scoredLiteraryWorks, List.mem_filterMap] at hp
    obtain ⟨w, _, hif⟩ := hp
    split_ifs at hif with hlt
    cases hif
    exact hlt
  · exact List.Pairwise.sublist (List.take_sublist 3 _)
      (List.sorted_insertionSort descSim _)

/-- Witness for C6: the similarity-threshold property applied at a concrete
one-work index. -/
theorem C6_witness : (3 : ℚ)/10 < 1 := by
  have hmem : (witWork, (1 : ℚ)) ∈ scoredLiteraryWorks [witWork] (fun _ _ => 1) "Poem" := by
    simp [scoredLiteraryWorks, (by norm_num : (3:ℚ)/10 < 1)]
  exact (C6_fuzzy_matching [witWork] (fun _ _ => 1) "Poem" []).2.2.1 (witWork, 1) hmem

/-- C8: ranking recomputes every candidate's confidence exactly once using
the empty comparator string and stable-sorts descending by the recomputed
confidences (so earlier candidates' confidences are ≥ later ones'), and
candidate generation returns the ranked list truncated to `maxCandidates`;
the end-to-end entry point uses the default of 5. -/
theorem C8_ranking_truncation :
    (∀ candidates : List PassageCandidate,
      rankCandidates candidates =
        (candidates.map (fun c =>
          { c with confidence := calculateConfidenceScore c "" })).insertionSort descConf ∧
      List.Sorted descConf (rankCandidates candidates)) ∧
    (∀ (works : List WorkIndexEntry) (sim : String → String → ℚ)
       (citation : String) (max_candidates : Nat),
      generatePassageCandidates works sim citation max_candidates =
        (collectCandidates works sim citation).map
          (fun cs => (rankCandidates cs).take max_candidates) ∧
      okLength (generatePassageCandidates works sim citation max_candidates) ≤
        max_candidates ∧
      okSorted (generatePassageCandidates works sim citation max_candidates)) ∧
    (∀ (works : List WorkIndexEntry) (sim : String → String → ℚ) (citation : String),
      resultLen (extractPassageFromCitation works sim citation) ≤ 5) := by
  refine ⟨?_, ?_, ?_⟩
  · intro candidates
    exact ⟨rfl, List.sorted_insertionSort descConf _⟩
  · intro works sim citation mc
    refine ⟨rfl, ?_, ?_⟩
    · cases h : collectCandidates works sim citation with
      | error e => simp [okLength, generatePassageCandidates, h, Except.map]
      | ok cs =>
        simp only [generatePassageCandidates, h, Except.map, okLength]
        exact List.length_take_le mc _
    · cases h : collectCandidates works sim citation with
      | error e => simp [okSorted, generatePassageCandidates, h, Except.map]
      | ok cs =>
        simp only [generatePassageCandidates, h, Except.map, okSorted]
        exact List.Pairwise.sublist (List.take_sublist mc _)
          (List.sorted_insertionSort descConf _)
  · intro works sim citation
    cases h : generatePassageCandidates works sim citation 5 with
    | error e => simp [extractPassageFromCitation, resultLen, h, Except.map]
    | ok cs =>
      simp only [extractPassageFromCitation, h, Except.map, resultLen,
        List.length_map]
      cases hc : collectCandidates works sim citation with
      | error e =>
        rw [generatePassageCandidates, hc] at h
        simp [Except.map] at h
      | ok cs2 =>
        rw [generatePassageCandidates, hc] at h
        simp only [Except.map, Except.ok.injEq] at h
        rw [← h]
        exact List.length_take_le 5 _

end CitationExtractor
